import Mathlib

/-!
Verification of the TikTok downloader API's extraction-and-normalization
pipeline.  The definitions below are a shallow embedding of the repository's
code: the Field Normalizer (`src/lib/formatter.ts`), the Response Assembler
(`formatResponse` in `src/unnamed/part_001`, the complete variant that carries
the de-duplication, quality sort and image filtering the spec describes), and
the Orchestrator (`scrapeTikTok` in `src/unnamed/part_001`).

Conventions of the embedding:
* JavaScript `undefined` is `Option.none`; a missing optional-chaining access
  (`a?.b`) is `Option.bind`.
* JavaScript `x || y` is modelled per type: for strings the empty string is
  falsy, for integers `0` is falsy, for arrays and objects every value is
  truthy.  The helpers `orStr`, `orInt`, `orStrOpt`, `orIntOpt` spell this out.
* JavaScript numbers that the code treats as integers are `Int` (counts,
  sizes, epochs); `Number.prototype.toFixed` is modelled as exact decimal
  rounding, half away from zero.
* Side effects (HTTP calls, `console.log`) are inputs: each retrieval
  strategy's outcome (threw / returned null / produced a raw item record) is
  an explicit argument of the orchestrator, and the orchestrator additionally
  reports how many strategies it invoked.
-/

/-! ### JavaScript truthiness helpers -/

/-- JS `a || b` where `a` is a possibly-undefined string: the empty string and
`undefined` are falsy. -/
def orStr (a : Option String) (b : String) : String :=
  match a with
  | some s => if s = "" then b else s
  | none => b

/-- JS `a || b` where both operands are possibly-undefined strings and the
whole expression's value is kept as-is (used where the JS result may itself be
`undefined` or empty). -/
def orStrOpt (a b : Option String) : Option String :=
  match a with
  | some s => if s = "" then b else some s
  | none => b

/-- JS `a || b` where `a` is a possibly-undefined number: `0` and `undefined`
are falsy. -/
def orInt (a : Option Int) (b : Int) : Int :=
  match a with
  | some n => if n = 0 then b else n
  | none => b

/-- JS `a || b` for possibly-undefined numbers, keeping the raw result (which
may be `undefined` or `0`). -/
def orIntOpt (a b : Option Int) : Option Int :=
  match a with
  | some n => if n = 0 then b else some n
  | none => b

/-- JS string interpolation of a possibly-undefined number: `undefined`
renders as the literal text `undefined`. -/
def jsStr (o : Option Int) : String :=
  match o with
  | some n => toString n
  | none => "undefined"

/-- Does the character list `pat` start the character list `l`? -/
def leadsList : List Char → List Char → Bool
  | [], _ => true
  | _ :: _, [] => false
  | a :: as, b :: bs => a = b && leadsList as bs

/-- Does the character list `pat` occur contiguously inside `l`? -/
def occursList (pat : List Char) : List Char → Bool
  | [] => leadsList pat []
  | b :: bs => leadsList pat (b :: bs) || occursList pat bs

/-- JS `s.includes(pat)`: substring containment. -/
def strIncludes (s pat : String) : Bool :=
  occursList pat.data s.data

/-! ### Field Normalizer (`src/lib/formatter.ts`) -/

/-- `(num / den)` rendered with exactly one decimal digit, rounding half away
from zero — the embedding of `Number.prototype.toFixed(1)` on the nonnegative
values the formatter divides. -/
def toFixed1 (num den : Nat) : String :=
  let d := (num * 10 + den / 2) / den
  toString (d / 10) ++ "." ++ toString (d % 10)

/-- Case split of `stripDotZero` on the reversed character list: a final
`.0` shows up as `'0'` then `'.'`. -/
def stripAux (s : String) : List Char → String
  | c1 :: c2 :: rest =>
    if c1 = '0' ∧ c2 = '.' then String.mk rest.reverse else s
  | _ => s

/-- The regex replacement `.replace(/\.0$/, '')`: drop a trailing `.0`. -/
def stripDotZero (s : String) : String :=
  stripAux s s.data.reverse

/-- `formatNumber` from `src/lib/formatter.ts`: thousands get a `k` suffix,
millions an `m` suffix, one decimal digit each with a trailing `.0`
suppressed. -/
def formatNumber (num : Int) : String :=
  if num ≥ 1000000 then
    stripDotZero (toFixed1 num.toNat 1000000) ++ "m"
  else if num ≥ 1000 then
    stripDotZero (toFixed1 num.toNat 1000) ++ "k"
  else
    toString num

/-- `(num / den)` rendered with exactly two decimal digits (the embedding of
`toFixed(2)` on nonnegative values), zero-padding the fraction. -/
def toFixed2 (num den : Nat) : String :=
  let d := (num * 100 + den / 2) / den
  let frac := d % 100
  toString (d / 100) ++ "." ++ (if frac < 10 then "0" else "") ++ toString frac

/-- `formatBytes` from `src/lib/formatter.ts` / `src/unnamed/part_001`:
`0` renders as the literal `0 MB`, otherwise megabytes to two decimals. -/
def formatBytes (bytes : Int) : String :=
  if bytes = 0 then "0 MB"
  else toFixed2 bytes.toNat (1024 * 1024) ++ " MB"

/-- The fixed region code → display name table of `src/lib/formatter.ts`. -/
def regionTable : List (String × String) :=
  [("US", "United States"), ("GB", "United Kingdom"), ("CA", "Canada"),
   ("AU", "Australia"), ("DE", "Germany"), ("FR", "France"), ("JP", "Japan"),
   ("KR", "South Korea"), ("IN", "India"), ("BR", "Brazil"), ("MX", "Mexico"),
   ("ID", "Indonesia"), ("RU", "Russia"), ("TR", "Turkey"),
   ("SA", "Saudi Arabia"), ("TH", "Thailand"), ("VN", "Vietnam"),
   ("PH", "Philippines"), ("MY", "Malaysia"), ("SG", "Singapore"),
   ("TW", "Taiwan"), ("HK", "Hong Kong"), ("CN", "China")]

/-- `parseRegion` from `src/lib/formatter.ts`:
`regionMap[locationCreated] || locationCreated || 'Unknown'`.  The argument is
optional because callers pass possibly-undefined upstream fields; a JS lookup
with `undefined` misses the table just as the empty string does. -/
def parseRegion (locationCreated : Option String) : String :=
  orStr (regionTable.lookup (locationCreated.getD ""))
    (orStr locationCreated "Unknown")

example : formatNumber 1500 = "1.5k" := by decide
example : parseRegion (some "US") = "United States" := by decide
example : formatBytes 1048576 = "1.00 MB" := by decide
example : strIncludes "1920x1080" "1080" = true := by decide

/-! ### Raw item record (the untyped upstream shape, `itemStruct`)

Each structure field is the optional-chaining access path the Assembler reads;
a field the upstream may omit is `Option`.  Accesses of `fld?.url_list?.[0]`
flatten to `UrlContainer` plus `List.head?`. -/

/-- An upstream object carrying a `url_list` array (covers, avatars,
addresses). -/
structure UrlContainer where
  url_list : Option (List String)
deriving DecidableEq, Repr

/-- One entry of the upstream bitrate ladder `video.bit_rate`. -/
structure BitRateInfo where
  play_addr : Option UrlContainer
  width : Option Int
  height : Option Int
  data_size : Option Int
  bit_rate : Option Int
  quality : Option String
deriving DecidableEq, Repr

/-- The upstream `itemStruct.video` object.  `cover_str` models the shape
where the upstream supplies `video.cover` as a plain string rather than a
`url_list` container (the JS code falls back to the raw `video.cover` value
when the container chain misses). -/
structure VideoInfo where
  cover : Option UrlContainer
  cover_str : Option String
  origin_cover : Option UrlContainer
  dynamic_cover : Option UrlContainer
  duration : Option Int
  video_length : Option Int
  ratio : Option String
  quality : Option String
  width : Option Int
  height : Option Int
  bitrate : Option Int
  play_addr : Option UrlContainer
  bit_rate : Option (List BitRateInfo)
  download_addr : Option UrlContainer
deriving DecidableEq, Repr

/-- The upstream `itemStruct.author` object. -/
structure AuthorInfo where
  nickname : Option String
  unique_id : Option String
  uid : Option String
  sec_uid : Option String
  avatar_larger : Option UrlContainer
  avatar_thumb : Option UrlContainer
  avatar_medium : Option UrlContainer
  verification_type : Option Int
  is_verified : Option Bool
deriving DecidableEq, Repr

/-- The upstream `music.play_url` object. -/
structure PlayUrl where
  url_list : Option (List String)
  uri : Option String
deriving DecidableEq, Repr

/-- The upstream `itemStruct.music` object. -/
structure MusicInfo where
  title : Option String
  author : Option String
  owner_nickname : Option String
  author_name : Option String
  cover_large : Option UrlContainer
  cover_thumb : Option UrlContainer
  cover_hd : Option UrlContainer
  play_url : Option PlayUrl
  duration : Option Int
deriving DecidableEq, Repr

/-- The upstream statistics object; the mobile API uses snake_case keys, the
web payload camelCase, and the Assembler probes both on whichever object it
picked. -/
structure StatsInfo where
  digg_count : Option Int
  diggCount : Option Int
  comment_count : Option Int
  commentCount : Option Int
  share_count : Option Int
  shareCount : Option Int
  play_count : Option Int
  playCount : Option Int
deriving DecidableEq, Repr

/-- One entry of an image post's image array. -/
structure RawImage where
  url_list : Option (List String)
  display_image : Option UrlContainer
  origin_image : Option UrlContainer
  width : Option Int
  height : Option Int
deriving DecidableEq, Repr

/-- The raw item record `itemStruct`: the fields `formatResponse` reads.
`imagePost_images` and `image_post_info_images` are the access paths
`itemStruct.imagePost?.images` and `itemStruct.image_post_info?.images`. -/
structure ItemStruct where
  imagePost_images : Option (List RawImage)
  image_post_info_images : Option (List RawImage)
  aweme_type : Option Int
  video : Option VideoInfo
  author : Option AuthorInfo
  music : Option MusicInfo
  statistics : Option StatsInfo
  stats : Option StatsInfo
  desc : Option String
  description : Option String
  create_time : Option Int
  createTime : Option Int
  region : Option String
  location_created : Option String
  aweme_id : Option String
  id : Option String
  video_id : Option String
deriving DecidableEq, Repr

def emptyVideoInfo : VideoInfo :=
  ⟨none, none, none, none, none, none, none, none, none, none, none, none,
   none, none⟩

def emptyAuthorInfo : AuthorInfo :=
  ⟨none, none, none, none, none, none, none, none, none⟩

def emptyMusicInfo : MusicInfo :=
  ⟨none, none, none, none, none, none, none, none, none⟩

def emptyStatsInfo : StatsInfo :=
  ⟨none, none, none, none, none, none, none, none⟩

/-! ### Canonical output record (the response contract) -/

/-- One media variant of the output (`VideoQuality` in `src/lib/types.ts`).
`vtype` is the extra `type` tag (`primary` / `fallback` / `bitrate`) the
part_001 Assembler puts on no-watermark entries and omits on watermarked
ones. -/
structure VideoQuality where
  url : String
  quality : String
  size : String
  sizeBytes : Int
  width : Int
  height : Int
  bitrate : Int
  vtype : Option String
deriving DecidableEq, Repr

structure AuthorOut where
  name : String
  username : String
  avatar : String
  verified : Bool
deriving DecidableEq, Repr

structure StatisticsOut where
  likes : String
  comments : String
  shares : String
  views : String
  likesRaw : Int
  commentsRaw : Int
  sharesRaw : Int
  viewsRaw : Int
deriving DecidableEq, Repr

structure MusicOut where
  title : String
  author : String
  cover : String
  url : String
  duration : Int
deriving DecidableEq, Repr

structure ImageOut where
  url : String
  width : Int
  height : Int
deriving DecidableEq, Repr

/-- The `video` sub-record of the output: `hd` is `Option` because the code
produces `null` for an empty pool. -/
structure VideoOut where
  noWatermark : List VideoQuality
  withWatermark : List VideoQuality
  hd : Option String
deriving DecidableEq, Repr

/-- The canonical media record (`VideoData` in `src/lib/types.ts`).  `dtype`
embeds the `type` discriminator field (`"video"` / `"images"`);
`createdAt_epoch` keeps the epoch seconds behind `createdAt` (the ISO-8601
rendering and the wall-clock `new Date()` fallback are outside the
deterministic embedding, so a missing/zero `create_time` is `none`). -/
structure VideoData where
  dtype : String
  id : Option String
  desc : String
  thumbnail : String
  author : AuthorOut
  statistics : StatisticsOut
  duration : Int
  region : String
  createdAt_epoch : Option Int
  music : MusicOut
  video : Option VideoOut
  images : Option (List ImageOut)
deriving DecidableEq, Repr

/-- The Result envelope (`TikTokResponse` in `src/lib/types.ts`). -/
structure TikTokResponse where
  status : String
  message : Option String
  data : Option VideoData
deriving DecidableEq, Repr

/-! ### Response Assembler (`formatResponse` in `src/unnamed/part_001`) -/

/-- `fld?.url_list?.[0]`: the first entry of an optional container's optional
list. -/
def uc0 (c : Option UrlContainer) : Option String :=
  (c.bind UrlContainer.url_list).bind List.head?

/-- The image-post variant test:
`imagePost?.images?.length > 0 || image_post_info?.images?.length > 0 ||
aweme_type === 150` (in JS a missing length comparison is false). -/
def isImagePost (it : ItemStruct) : Bool :=
  decide (0 < (it.imagePost_images.getD []).length) ||
  decide (0 < (it.image_post_info_images.getD []).length) ||
  decide (it.aweme_type = some 150)

/-- The fixed quality rank table
`{ '1080p': 4, '720p': 3, '540p': 2, '480p': 1 }`, with `|| 0` for any other
label. -/
def rankOf (q : String) : Nat :=
  if q = "1080p" then 4
  else if q = "720p" then 3
  else if q = "540p" then 2
  else if q = "480p" then 1
  else 0

/-- The sort comparator's order: `a` may come before `b` when `b`'s rank is
not above `a`'s (the JS comparator returns `bScore - aScore`, descending). -/
def qRel (a b : VideoQuality) : Prop :=
  rankOf b.quality ≤ rankOf a.quality

instance : DecidableRel qRel := fun a b =>
  inferInstanceAs (Decidable (rankOf b.quality ≤ rankOf a.quality))

instance : IsTotal VideoQuality qRel :=
  ⟨fun a b => le_total (rankOf b.quality) (rankOf a.quality)⟩

instance : IsTrans VideoQuality qRel :=
  ⟨fun _ _ _ h1 h2 => le_trans h2 h1⟩

/-- The in-place `uniqueQualities.sort(comparator)`: JS `Array.prototype.sort`
is a stable sort, which insertion sort with the comparator's non-strict order
realizes exactly. -/
def sortByRank (l : List VideoQuality) : List VideoQuality :=
  List.insertionSort qRel l

/-- The de-duplication filter over a `seenUrls` set: keep an entry only when
its URL has not appeared before. -/
def dedupByUrl : List VideoQuality → List String → List VideoQuality
  | [], _ => []
  | q :: rest, seen =>
    if q.url ∈ seen then dedupByUrl rest seen
    else q :: dedupByUrl rest (q.url :: seen)

/-- The primary no-watermark candidates: one entry per truthy URL of
`video.play_addr.url_list`, tagged `primary` at index 0 and `fallback`
after. -/
def primaryQualities (v : VideoInfo) : List VideoQuality :=
  ((v.play_addr.bind UrlContainer.url_list).getD []).enum.filterMap
    fun p =>
      if p.2 = "" then none
      else some
        { url := p.2
          quality := orStr v.ratio (orStr v.quality "540p")
          size := "Unknown"
          sizeBytes := 0
          width := orInt v.width 576
          height := orInt v.height 1024
          bitrate := orInt v.bitrate 0
          vtype := some (if p.1 = 0 then "primary" else "fallback") }

/-- The secondary no-watermark candidates from the bitrate ladder: entries
whose `play_addr.url_list[0]` is truthy.  The JS quality label is the template
`` `${info.width}x${info.height}` `` (always a nonempty string, so the
`|| info.quality || '540p'` fallbacks after it never fire). -/
def bitrateQualities (v : VideoInfo) : List VideoQuality :=
  (v.bit_rate.getD []).filterMap fun info =>
    match uc0 info.play_addr with
    | some url =>
      if url = "" then none
      else some
        { url := url
          quality := jsStr info.width ++ "x" ++ jsStr info.height
          size := formatBytes (orInt info.data_size 0)
          sizeBytes := orInt info.data_size 0
          width := orInt info.width 576
          height := orInt info.height 1024
          bitrate := orInt info.bit_rate 0
          vtype := some "bitrate" }
    | none => none

/-- The `qualities` array before de-duplication: primary play-address entries
then bitrate-ladder entries. -/
def rawQualities (v : VideoInfo) : List VideoQuality :=
  primaryQualities v ++ bitrateQualities v

/-- The watermark-bearing pool from `video.download_addr.url_list` (kept
separate from the no-watermark pool; no de-duplication, no sort, no `type`
tag). -/
def withWatermarkList (v : VideoInfo) : List VideoQuality :=
  ((v.download_addr.bind UrlContainer.url_list).getD []).filterMap fun url =>
    if url = "" then none
    else some
      { url := url
        quality := orStr v.ratio "540p"
        size := "Unknown"
        sizeBytes := 0
        width := orInt v.width 576
        height := orInt v.height 1024
        bitrate := orInt v.bitrate 0
        vtype := none }

/-- Whether a quality label qualifies an entry for `hd`:
`q.quality.includes('720') || q.quality.includes('1080')`. -/
def hdPred (q : VideoQuality) : Bool :=
  strIncludes q.quality "720" || strIncludes q.quality "1080"

/-- The `hd` selection over the de-duplicated, sorted pool:
`uq.find(hdPred)?.url || uq[0]?.url || null`. -/
def hdOf (uq : List VideoQuality) : Option String :=
  orStrOpt ((uq.find? hdPred).map VideoQuality.url)
    (orStrOpt ((uq.head?).map VideoQuality.url) none)

/-- The de-duplicated, rank-sorted no-watermark pool (`uniqueQualities` after
the in-place sort). -/
def uniqueQualities (v : VideoInfo) : List VideoQuality :=
  sortByRank (dedupByUrl (rawQualities v) [])

/-- The alias-priority resolution of one image entry:
`img.url_list?.[0] || img.display_image?.url_list?.[0] ||
img.origin_image?.url_list?.[0] || ''`, with defaulted dimensions. -/
def resolveImage (img : RawImage) : ImageOut :=
  { url := orStr (img.url_list.bind List.head?)
      (orStr (uc0 img.display_image) (orStr (uc0 img.origin_image) ""))
    width := orInt img.width 1080
    height := orInt img.height 1920 }

/-- The image array an image post maps over:
`itemStruct.imagePost?.images || itemStruct.image_post_info?.images || []`
(arrays are truthy in JS even when empty, so a present-but-empty first array
wins). -/
def rawImages (it : ItemStruct) : List RawImage :=
  ((it.imagePost_images).orElse fun _ => it.image_post_info_images).getD []

/-- The mapped-and-filtered output image list: resolve each entry's URL
through the alias list, then `.filter(img => img.url)` drops empty URLs. -/
def imagesOut (it : ItemStruct) : List ImageOut :=
  ((rawImages it).map resolveImage).filter fun img => img.url ≠ ""

/-- The body of `formatResponse`: assemble the canonical record from a raw
item record.  `parseInt` on the already-integer statistics model is the
identity.  The guard `!isImagePost && videoInfo` of the JS code always sees a
truthy `videoInfo` (it was defaulted to `{}`), so only the image flag
decides. -/
def formatData (it : ItemStruct) : VideoData :=
  let isImg := isImagePost it
  let videoInfo := it.video.getD emptyVideoInfo
  let authorInfo := it.author.getD emptyAuthorInfo
  let musicInfo := it.music.getD emptyMusicInfo
  let stats := ((it.statistics).orElse fun _ => it.stats).getD emptyStatsInfo
  let createTime := orIntOpt it.create_time it.createTime
  let region := orStr it.region (orStr it.location_created "Unknown")
  { dtype := if isImg then "images" else "video"
    id := orStrOpt it.aweme_id (orStrOpt it.id it.video_id)
    desc := orStr it.desc (orStr it.description "")
    thumbnail := orStr (uc0 videoInfo.cover)
      (orStr (uc0 videoInfo.origin_cover)
        (orStr (uc0 videoInfo.dynamic_cover) (orStr videoInfo.cover_str "")))
    author :=
      { name := orStr authorInfo.nickname ""
        username := orStr authorInfo.unique_id
          (orStr authorInfo.uid (orStr authorInfo.sec_uid ""))
        avatar := orStr (uc0 authorInfo.avatar_larger)
          (orStr (uc0 authorInfo.avatar_thumb)
            (orStr (uc0 authorInfo.avatar_medium) ""))
        verified := decide (authorInfo.verification_type = some 1) ||
          authorInfo.is_verified.getD false }
    statistics :=
      { likes := formatNumber (orInt stats.digg_count (orInt stats.diggCount 0))
        comments :=
          formatNumber (orInt stats.comment_count (orInt stats.commentCount 0))
        shares :=
          formatNumber (orInt stats.share_count (orInt stats.shareCount 0))
        views :=
          formatNumber (orInt stats.play_count (orInt stats.playCount 0))
        likesRaw := orInt stats.digg_count (orInt stats.diggCount 0)
        commentsRaw := orInt stats.comment_count (orInt stats.commentCount 0)
        sharesRaw := orInt stats.share_count (orInt stats.shareCount 0)
        viewsRaw := orInt stats.play_count (orInt stats.playCount 0) }
    duration :=
      let a := (orInt videoInfo.duration (orInt videoInfo.video_length 0)).fdiv
        1000
      if a = 0 then orInt videoInfo.duration 0 else a
    region := parseRegion (some region)
    createdAt_epoch :=
      match createTime with
      | some n => if n = 0 then none else some n
      | none => none
    music :=
      { title := orStr musicInfo.title ""
        author := orStr musicInfo.author
          (orStr musicInfo.owner_nickname (orStr musicInfo.author_name ""))
        cover := orStr (uc0 musicInfo.cover_large)
          (orStr (uc0 musicInfo.cover_thumb)
            (orStr (uc0 musicInfo.cover_hd) ""))
        url := orStr ((musicInfo.play_url.bind PlayUrl.url_list).bind
            List.head?)
          (orStr (musicInfo.play_url.bind PlayUrl.uri) "")
        duration := (orInt musicInfo.duration 0).fdiv 1000 }
    video :=
      if isImg then none
      else some
        { noWatermark := uniqueQualities videoInfo
          withWatermark := withWatermarkList videoInfo
          hd := hdOf (uniqueQualities videoInfo) }
    images := if isImg then some (imagesOut it) else none }

/-- `formatResponse`: the Assembler always wraps its record in a success
envelope. -/
def formatResponse (it : ItemStruct) : TikTokResponse :=
  { status := "success", message := none, data := some (formatData it) }

/-! ### Orchestrator (`scrapeTikTok` in `src/unnamed/part_001`) -/

/-- The outcome of one retrieval strategy, as the orchestrator's `try` block
observes it: the strategy threw (with some error text), resolved to `null`,
or resolved to `formatResponse(itemStruct)` for the raw record it located —
the only non-null value any of the three strategies produces. -/
inductive StratOutcome where
  | threw (emsg : String)
  | nullResult
  | returned (it : ItemStruct)
deriving DecidableEq, Repr

/-- A strategy outcome that yields no usable record (it threw or resolved to
`null`). -/
def StratOutcome.failed : StratOutcome → Prop
  | .threw _ => True
  | .nullResult => True
  | .returned _ => False

instance : DecidablePred StratOutcome.failed := fun o =>
  match o with
  | .threw _ => inferInstanceAs (Decidable True)
  | .nullResult => inferInstanceAs (Decidable True)
  | .returned _ => inferInstanceAs (Decidable False)

/-- The strategy loop: swallow a throw or a `null`, return the first
envelope whose `status` is `success` verbatim.  Also counts the strategies
invoked, so that "no strategy executed" is observable. -/
def runStrategies : List StratOutcome → Option TikTokResponse × Nat
  | [] => (none, 0)
  | o :: rest =>
    match o with
    | .threw _ =>
      let r := runStrategies rest
      (r.1, r.2 + 1)
    | .nullResult =>
      let r := runStrategies rest
      (r.1, r.2 + 1)
    | .returned it =>
      let resp := formatResponse it
      if resp.status = "success" then (some resp, 1)
      else
        let r := runStrategies rest
        (r.1, r.2 + 1)

/-- The orchestrator, with the Identifier Extractor's result and the three
strategies' outcomes as explicit inputs: `videoId = none` is
`extractVideoId(url)` returning `null`.  Returns the result envelope and the
number of strategies invoked. -/
def scrapeTikTokRun (videoId : Option String)
    (s1 s2 s3 : StratOutcome) : TikTokResponse × Nat :=
  match videoId with
  | none =>
    ({ status := "error", message := some "Invalid TikTok URL format",
       data := none }, 0)
  | some _ =>
    match runStrategies [s1, s2, s3] with
    | (some r, n) => (r, n)
    | (none, n) =>
      ({ status := "error",
         message := some
           "All extraction methods failed. Video may be private, deleted, or region-blocked.",
         data := none }, n)

/-! ### Sample raw records for concrete witnesses -/

/-- A video-type raw item record with a duplicate URL across the candidate
positions and mixed quality labels. -/
def sampleVideoItem : ItemStruct :=
  { imagePost_images := none
    image_post_info_images := none
    aweme_type := some 0
    video := some
      { emptyVideoInfo with
        ratio := some "540p"
        width := some 576
        height := some 1024
        bitrate := some 321
        duration := some 15000
        play_addr := some ⟨some ["http://a/play", "http://b/backup"]⟩
        bit_rate := some
          [⟨some ⟨some ["http://a/play"]⟩, some 1920, some 1080, some 1000,
            some 999, none⟩,
           ⟨some ⟨some ["http://c/hd"]⟩, some 1280, some 720, some 2000,
            some 888, none⟩]
        download_addr := some ⟨some ["http://d/wm"]⟩ }
    author := none
    music := none
    statistics := some ⟨some 1500, none, some 12, none, some 3, none,
      some 2000000, none⟩
    stats := none
    desc := some "a clip"
    description := none
    create_time := some 1700000000
    createTime := none
    region := some "US"
    location_created := none
    aweme_id := some "7300000000000000000"
    id := none
    video_id := none }

/-- An image-type raw item record with one empty-URL entry that the filter
must drop. -/
def sampleImageItem : ItemStruct :=
  { imagePost_images := some
      [⟨some ["http://img/1"], none, none, some 1080, some 1920⟩,
       ⟨some [""], none, none, none, none⟩,
       ⟨none, some ⟨some ["http://img/3"]⟩, none, none, none⟩]
    image_post_info_images := none
    aweme_type := some 150
    video := none
    author := none
    music := none
    statistics := none
    stats := none
    desc := none
    description := none
    create_time := none
    createTime := none
    region := none
    location_created := none
    aweme_id := some "7300000000000000001"
    id := none
    video_id := none }

example : isImagePost sampleVideoItem = false := by decide
example : isImagePost sampleImageItem = true := by decide
example :
    (uniqueQualities (sampleVideoItem.video.getD emptyVideoInfo)).map
      VideoQuality.url =
    ["http://a/play", "http://b/backup", "http://c/hd"] := by decide
example :
    hdOf (uniqueQualities (sampleVideoItem.video.getD emptyVideoInfo)) =
    some "http://c/hd" := by decide
example :
    (imagesOut sampleImageItem).map ImageOut.url =
    ["http://img/1", "http://img/3"] := by decide
example :
    (formatData sampleVideoItem).statistics.likes = "1.5k" := by decide
example :
    (formatData sampleVideoItem).statistics.views = "2m" := by decide
example :
    (formatData sampleVideoItem).region = "United States" := by decide

/-! ### Lemmas about the de-duplication and the quality sort -/

theorem dedupByUrl_mem (q : VideoQuality) (l : List VideoQuality)
    (seen : List String) (h : q ∈ dedupByUrl l seen) :
    q ∈ l ∧ q.url ∉ seen := by
  induction l generalizing seen with
  | nil => simp [dedupByUrl] at h
  | cons x rest ih =>
    simp only [dedupByUrl] at h
    by_cases hx : x.url ∈ seen
    · rw [if_pos hx] at h
      obtain ⟨h1, h2⟩ := ih seen h
      exact ⟨List.mem_cons_of_mem _ h1, h2⟩
    · rw [if_neg hx] at h
      rcases List.mem_cons.mp h with h | h
      · subst h
        exact ⟨List.mem_cons_self _ _, hx⟩
      · obtain ⟨h1, h2⟩ := ih _ h
        exact ⟨List.mem_cons_of_mem _ h1,
          fun hs => h2 (List.mem_cons_of_mem _ hs)⟩

theorem dedupByUrl_find (q : VideoQuality) (l : List VideoQuality)
    (seen : List String) (h : q ∈ dedupByUrl l seen) :
    l.find? (fun r => r.url == q.url) = some q := by
  induction l generalizing seen with
  | nil => simp [dedupByUrl] at h
  | cons x rest ih =>
    simp only [dedupByUrl] at h
    by_cases hx : x.url ∈ seen
    · rw [if_pos hx] at h
      have hni := (dedupByUrl_mem q rest seen h).2
      have hne : x.url ≠ q.url := fun he => hni (he ▸ hx)
      rw [List.find?_cons_of_neg _ (by simpa using hne)]
      exact ih seen h
    · rw [if_neg hx] at h
      rcases List.mem_cons.mp h with h | h
      · subst h
        exact List.find?_cons_of_pos _ (by simp)
      · have hm := dedupByUrl_mem q rest _ h
        have hne : x.url ≠ q.url :=
          fun he => hm.2 (he ▸ List.mem_cons_self _ _)
        rw [List.find?_cons_of_neg _ (by simpa using hne)]
        exact ih _ h

theorem dedupByUrl_map_mem (u : String) (l : List VideoQuality)
    (seen : List String) :
    u ∈ (dedupByUrl l seen).map VideoQuality.url ↔
      u ∈ l.map VideoQuality.url ∧ u ∉ seen := by
  induction l generalizing seen with
  | nil => simp [dedupByUrl]
  | cons x rest ih =>
    simp only [dedupByUrl]
    by_cases hx : x.url ∈ seen
    · rw [if_pos hx, ih]
      simp only [List.map_cons, List.mem_cons]
      constructor
      · rintro ⟨h1, h2⟩
        exact ⟨Or.inr h1, h2⟩
      · rintro ⟨h1 | h1, h2⟩
        · exact absurd hx (h1 ▸ h2)
        · exact ⟨h1, h2⟩
    · rw [if_neg hx]
      simp only [List.map_cons, List.mem_cons, ih]
      constructor
      · rintro (h | ⟨h1, h2⟩)
        · exact ⟨Or.inl h, h ▸ hx⟩
        · exact ⟨Or.inr h1, fun hs => h2 (Or.inr hs)⟩
      · rintro ⟨h1 | h1, h2⟩
        · exact Or.inl h1
        · by_cases hu : u = x.url
          · exact Or.inl hu
          · exact Or.inr ⟨h1, fun hs => hs.elim hu h2⟩

theorem dedupByUrl_nodup (l : List VideoQuality) (seen : List String) :
    ((dedupByUrl l seen).map VideoQuality.url).Nodup := by
  induction l generalizing seen with
  | nil => simp [dedupByUrl]
  | cons x rest ih =>
    simp only [dedupByUrl]
    by_cases hx : x.url ∈ seen
    · rw [if_pos hx]
      exact ih seen
    · rw [if_neg hx]
      simp only [List.map_cons, List.nodup_cons]
      refine ⟨fun hmem => ?_, ih _⟩
      exact ((dedupByUrl_map_mem x.url rest (x.url :: seen)).mp hmem).2
        (List.mem_cons_self _ _)

theorem rawQualities_url_ne (v : VideoInfo) (q : VideoQuality)
    (h : q ∈ rawQualities v) : q.url ≠ "" := by
  rcases List.mem_append.mp h with h | h
  · rcases List.mem_filterMap.mp h with ⟨p, _, hp⟩
    split at hp
    · exact absurd hp (by simp)
    · rename_i hne
      obtain rfl := Option.some.inj hp
      exact hne
  · rcases List.mem_filterMap.mp h with ⟨info, _, hp⟩
    split at hp
    · split at hp
      · exact absurd hp (by simp)
      · rename_i hne
        obtain rfl := Option.some.inj hp
        exact hne
    · exact absurd hp (by simp)

theorem mem_uniqueQualities (v : VideoInfo) (q : VideoQuality) :
    q ∈ uniqueQualities v ↔ q ∈ dedupByUrl (rawQualities v) [] := by
  unfold uniqueQualities sortByRank
  exact List.mem_insertionSort qRel

theorem uniqueQualities_url_ne (v : VideoInfo) (q : VideoQuality)
    (h : q ∈ uniqueQualities v) : q.url ≠ "" :=
  rawQualities_url_ne v q
    (dedupByUrl_mem q _ [] ((mem_uniqueQualities v q).mp h)).1

theorem formatData_video (it : ItemStruct) (h : isImagePost it = false) :
    (formatData it).video =
      some ⟨uniqueQualities (it.video.getD emptyVideoInfo),
        withWatermarkList (it.video.getD emptyVideoInfo),
        hdOf (uniqueQualities (it.video.getD emptyVideoInfo))⟩ := by
  simp [formatData, h]

/-- C1: for every raw item record assembled into a video-type canonical
record, the `noWatermark` list contains each URL exactly once (the first
occurrence among the candidate positions is the entry kept) and is sorted
descending by the fixed quality-rank table (1080p:4, 720p:3, 540p:2, 480p:1,
anything else 0, embodied by `rankOf`). -/
theorem assembler_noWatermark_dedup_sorted (it : ItemStruct)
    (h : isImagePost it = false) :
    ∃ vOut, (formatData it).video = some vOut ∧
      (vOut.noWatermark.map VideoQuality.url).Nodup ∧
      (∀ u, u ∈ vOut.noWatermark.map VideoQuality.url ↔
        u ∈ (rawQualities (it.video.getD emptyVideoInfo)).map
          VideoQuality.url) ∧
      (∀ q ∈ vOut.noWatermark,
        (rawQualities (it.video.getD emptyVideoInfo)).find?
          (fun r => r.url == q.url) = some q) ∧
      vOut.noWatermark.Pairwise
        (fun a b => rankOf b.quality ≤ rankOf a.quality) := by
  have hperm : List.Perm
      ((uniqueQualities (it.video.getD emptyVideoInfo)).map VideoQuality.url)
      ((dedupByUrl (rawQualities (it.video.getD emptyVideoInfo)) []).map
        VideoQuality.url) :=
    (List.perm_insertionSort qRel _).map _
  refine ⟨_, formatData_video it h, ?_, ?_, ?_, ?_⟩
  · exact hperm.nodup_iff.mpr (dedupByUrl_nodup _ _)
  · intro u
    dsimp only
    rw [hperm.mem_iff, dedupByUrl_map_mem]
    simp
  · intro q hq
    exact dedupByUrl_find q _ []
      ((mem_uniqueQualities (it.video.getD emptyVideoInfo) q).mp hq)
  · exact (List.sorted_insertionSort qRel _).imp fun hab => hab

/-- Concrete instance of C1: the sample record carries the URL `http://a/play`
at two candidate positions and the output keeps it once, in rank order. -/
theorem assembler_noWatermark_dedup_sorted_witness :
    ∃ vOut, (formatData sampleVideoItem).video = some vOut ∧
      (vOut.noWatermark.map VideoQuality.url).Nodup ∧
      (∀ u, u ∈ vOut.noWatermark.map VideoQuality.url ↔
        u ∈ (rawQualities (sampleVideoItem.video.getD emptyVideoInfo)).map
          VideoQuality.url) ∧
      (∀ q ∈ vOut.noWatermark,
        (rawQualities (sampleVideoItem.video.getD emptyVideoInfo)).find?
          (fun r => r.url == q.url) = some q) ∧
      vOut.noWatermark.Pairwise
        (fun a b => rankOf b.quality ≤ rankOf a.quality) :=
  assembler_noWatermark_dedup_sorted sampleVideoItem (by decide)

/-- C2: for every video-type canonical record, `hd` is the URL of the first
de-duplicated `noWatermark` entry whose quality label contains `720` or
`1080`; with no such entry it is the URL of the first entry; with an empty
pool it is null. -/
theorem assembler_hd_selection (it : ItemStruct)
    (h : isImagePost it = false) :
    ∃ vOut, (formatData it).video = some vOut ∧
      (∀ q, vOut.noWatermark.find? hdPred = some q →
        vOut.hd = some q.url) ∧
      (vOut.noWatermark.find? hdPred = none →
        ∀ q, vOut.noWatermark.head? = some q → vOut.hd = some q.url) ∧
      (vOut.noWatermark = [] → vOut.hd = none) := by
  refine ⟨_, formatData_video it h, ?_, ?_, ?_⟩
  · intro q hq
    have hne := uniqueQualities_url_ne (it.video.getD emptyVideoInfo) q
      (List.mem_of_find?_eq_some hq)
    simp [hdOf, hq, orStrOpt, hne]
  · intro hnone q hq
    have hne := uniqueQualities_url_ne (it.video.getD emptyVideoInfo) q
      (List.mem_of_mem_head? hq)
    simp [hdOf, hnone, hq, orStrOpt, hne]
  · dsimp only
    intro hnil
    rw [hnil]
    simp [hdOf, orStrOpt]

/-- Concrete instance of C2: on the sample record the selected `hd` entry is
the `1280x720` bitrate-ladder URL. -/
theorem assembler_hd_selection_witness :
    ∃ vOut, (formatData sampleVideoItem).video = some vOut ∧
      (∀ q, vOut.noWatermark.find? hdPred = some q →
        vOut.hd = some q.url) ∧
      (vOut.noWatermark.find? hdPred = none →
        ∀ q, vOut.noWatermark.head? = some q → vOut.hd = some q.url) ∧
      (vOut.noWatermark = [] → vOut.hd = none) :=
  assembler_hd_selection sampleVideoItem (by decide)

/-- C3: for every extractor outcome and every outcome of the three retrieval
strategies, the orchestrator returns a well-formed Result envelope: `status`
is `success` or `error`, a success envelope carries `data` and no `message`,
an error envelope carries `message` and no `data`. -/
theorem orchestrator_envelope_wellformed (videoId : Option String)
    (s1 s2 s3 : StratOutcome) :
    ((scrapeTikTokRun videoId s1 s2 s3).1.status = "success" ∨
      (scrapeTikTokRun videoId s1 s2 s3).1.status = "error") ∧
    ((scrapeTikTokRun videoId s1 s2 s3).1.status = "success" →
      (scrapeTikTokRun videoId s1 s2 s3).1.data.isSome = true ∧
      (scrapeTikTokRun videoId s1 s2 s3).1.message.isNone = true) ∧
    ((scrapeTikTokRun videoId s1 s2 s3).1.status = "error" →
      (scrapeTikTokRun videoId s1 s2 s3).1.message.isSome = true ∧
      (scrapeTikTokRun videoId s1 s2 s3).1.data.isNone = true) := by
  rcases videoId with _ | vid
  · refine ⟨Or.inr rfl, ?_, ?_⟩
    · intro hs
      simp only [scrapeTikTokRun] at hs
      exact absurd hs (by decide)
    · intro _
      exact ⟨rfl, rfl⟩
  · rcases s1 with e1 | _ | it1 <;> rcases s2 with e2 | _ | it2 <;>
      rcases s3 with e3 | _ | it3 <;>
      simp [scrapeTikTokRun, runStrategies, formatResponse]

/-- Concrete instance of C3 at an all-null run. -/
theorem orchestrator_envelope_wellformed_witness :
    ((scrapeTikTokRun (some "7300000000000000000") .nullResult .nullResult
        .nullResult).1.status = "success" ∨
      (scrapeTikTokRun (some "7300000000000000000") .nullResult .nullResult
        .nullResult).1.status = "error") :=
  (orchestrator_envelope_wellformed (some "7300000000000000000")
    .nullResult .nullResult .nullResult).1

/-- C4: when every strategy throws or resolves to null, the orchestrator's
result is the one generic error envelope whose message is the fixed
`All extraction methods failed...` text — independent of the error text any
strategy threw, so no strategy diagnostic reaches the caller. -/
theorem orchestrator_all_failed_generic (vid : String)
    (s1 s2 s3 : StratOutcome) (h1 : s1.failed) (h2 : s2.failed)
    (h3 : s3.failed) :
    scrapeTikTokRun (some vid) s1 s2 s3 =
      ({ status := "error",
         message := some
           "All extraction methods failed. Video may be private, deleted, or region-blocked.",
         data := none }, 3) := by
  rcases s1 with e1 | _ | it1 <;> rcases s2 with e2 | _ | it2 <;>
    rcases s3 with e3 | _ | it3 <;>
    first
      | rfl
      | exact (h1 : False).elim
      | exact (h2 : False).elim
      | exact (h3 : False).elim

/-- Concrete instance of C4: two exceptions with distinct upstream texts and
one null still produce only the fixed generic message. -/
theorem orchestrator_all_failed_generic_witness :
    scrapeTikTokRun (some "7300000000000000000")
        (.threw "upstream 403 blocked") .nullResult
        (.threw "socket timeout") =
      ({ status := "error",
         message := some
           "All extraction methods failed. Video may be private, deleted, or region-blocked.",
         data := none }, 3) :=
  orchestrator_all_failed_generic "7300000000000000000"
    (.threw "upstream 403 blocked") .nullResult (.threw "socket timeout")
    trivial trivial trivial

/-- C5: when the Identifier Extractor fails, the orchestrator returns the
invalid-URL error envelope at once and invokes zero strategies, whatever
their outcomes would have been. -/
theorem orchestrator_invalid_url_short_circuit (s1 s2 s3 : StratOutcome) :
    scrapeTikTokRun none s1 s2 s3 =
      ({ status := "error", message := some "Invalid TikTok URL format",
         data := none }, 0) :=
  rfl

/-- C6: the `type` discriminator of every assembled canonical record
determines which media field is populated: `images` present and `video`
absent for image posts, the reverse for video posts. -/
theorem assembler_type_determines_media (it : ItemStruct) :
    ((formatData it).dtype = "images" →
      (formatData it).images.isSome = true ∧
      (formatData it).video.isNone = true) ∧
    ((formatData it).dtype = "video" →
      (formatData it).video.isSome = true ∧
      (formatData it).images.isNone = true) := by
  by_cases h : isImagePost it = true
  · constructor
    · intro _
      simp [formatData, h]
    · intro hv
      simp only [formatData, h, if_pos] at hv
      exact absurd hv (by decide)
  · rw [Bool.not_eq_true] at h
    constructor
    · intro hv
      simp only [formatData, h] at hv
      exact absurd hv (by decide)
    · intro _
      simp [formatData, h]

/-- C7: for every image-type raw item record, the output image list is the
alias-resolved image entries with every empty-URL entry dropped — membership
in the output is exactly alias-resolved membership with a nonempty URL, so no
output entry has an empty `url`. -/
theorem assembler_images_filtered (it : ItemStruct)
    (h : isImagePost it = true) :
    ∃ imgs, (formatData it).images = some imgs ∧
      (∀ i, i ∈ imgs ↔ i ∈ (rawImages it).map resolveImage ∧ i.url ≠ "") ∧
      (∀ i ∈ imgs, i.url ≠ "") := by
  refine ⟨imagesOut it, by simp [formatData, h], ?_, ?_⟩
  · intro i
    unfold imagesOut
    rw [List.mem_filter]
    simp
  · intro i hi
    rcases (List.mem_filter.mp hi) with ⟨_, hne⟩
    simpa using hne

/-- Concrete instance of C7: the sample image post drops its empty-URL
entry. -/
theorem assembler_images_filtered_witness :
    ∃ imgs, (formatData sampleImageItem).images = some imgs ∧
      (∀ i, i ∈ imgs ↔
        i ∈ (rawImages sampleImageItem).map resolveImage ∧ i.url ≠ "") ∧
      (∀ i ∈ imgs, i.url ≠ "") :=
  assembler_images_filtered sampleImageItem (by decide)

/-- C10: in every assembled canonical record the display statistics are the
normalizer applied to the raw statistics. -/
theorem assembler_stats_display_raw_consistent (it : ItemStruct) :
    (formatData it).statistics.likes =
      formatNumber (formatData it).statistics.likesRaw ∧
    (formatData it).statistics.comments =
      formatNumber (formatData it).statistics.commentsRaw ∧
    (formatData it).statistics.shares =
      formatNumber (formatData it).statistics.sharesRaw ∧
    (formatData it).statistics.views =
      formatNumber (formatData it).statistics.viewsRaw :=
  ⟨rfl, rfl, rfl, rfl⟩

/-! ### Lemmas about the number formatter -/

theorem string_data_append (a b : String) : (a ++ b).data = a.data ++ b.data :=
  rfl

theorem string_mk_data (s : String) : String.mk s.data = s :=
  rfl

theorem digit_data (b : Nat) (hb : b < 10) :
    (toString b).data = [Char.ofNat (48 + b)] := by
  interval_cases b <;> decide

theorem stripDotZero_concat (a : String) (b : Nat) (hb : b < 10) :
    stripDotZero (a ++ "." ++ toString b) =
      if b = 0 then a else a ++ "." ++ toString b := by
  have hdata : (a ++ "." ++ toString b).data.reverse =
      Char.ofNat (48 + b) :: '.' :: a.data.reverse := by
    rw [string_data_append, string_data_append, digit_data b hb]
    simp [show ("." : String).data = ['.'] from rfl]
  unfold stripDotZero
  rw [hdata]
  by_cases hb0 : b = 0
  · subst hb0
    rw [show Char.ofNat (48 + 0) = '0' from by decide]
    simp [stripAux, string_mk_data]
  · have h1 : 1 ≤ b := Nat.pos_of_ne_zero hb0
    have hc : Char.ofNat (48 + b) ≠ '0' := by
      interval_cases b <;> decide
    simp [stripAux, hc, hb0]

theorem formatNumber_small (n : Int) (h : n < 1000) :
    formatNumber n = toString n := by
  unfold formatNumber
  rw [if_neg (by omega), if_neg (by omega)]

theorem formatNumber_thousands (n : Int) (h1 : 1000 ≤ n)
    (h2 : n < 1000000) :
    formatNumber n =
      (if (n.toNat * 10 + 500) / 1000 % 10 = 0
       then toString ((n.toNat * 10 + 500) / 1000 / 10)
       else toString ((n.toNat * 10 + 500) / 1000 / 10) ++ "." ++
         toString ((n.toNat * 10 + 500) / 1000 % 10)) ++ "k" := by
  unfold formatNumber
  rw [if_neg (by omega), if_pos h1]
  unfold toFixed1
  rw [stripDotZero_concat _ _ (Nat.mod_lt _ (by norm_num))]

theorem formatNumber_millions (n : Int) (h1 : 1000000 ≤ n) :
    formatNumber n =
      (if (n.toNat * 10 + 500000) / 1000000 % 10 = 0
       then toString ((n.toNat * 10 + 500000) / 1000000 / 10)
       else toString ((n.toNat * 10 + 500000) / 1000000 / 10) ++ "." ++
         toString ((n.toNat * 10 + 500000) / 1000000 % 10)) ++ "m" := by
  unfold formatNumber
  rw [if_pos h1]
  unfold toFixed1
  rw [stripDotZero_concat _ _ (Nat.mod_lt _ (by norm_num))]

/-- C8: `formatNumber` renders integers below 1000 as their decimal string;
integers in [1000, 1000000) as thousandths to one decimal digit (here in
exact tenths, `(n*10 + 500) / 1000`, the half-up rounding of `toFixed(1)`)
with suffix `k` and a trailing `.0` suppressed; and integers from 1000000 up
likewise with suffix `m`; in particular 999, 1000, 1500 and 2000000 render as
`999`, `1k`, `1.5k` and `2m`. -/
theorem formatNumber_rendering :
    formatNumber 999 = "999" ∧ formatNumber 1000 = "1k" ∧
    formatNumber 1500 = "1.5k" ∧ formatNumber 2000000 = "2m" ∧
    (∀ n : Int, n < 1000 → formatNumber n = toString n) ∧
    (∀ n : Int, 1000 ≤ n → n < 1000000 →
      formatNumber n =
        (if (n.toNat * 10 + 500) / 1000 % 10 = 0
         then toString ((n.toNat * 10 + 500) / 1000 / 10)
         else toString ((n.toNat * 10 + 500) / 1000 / 10) ++ "." ++
           toString ((n.toNat * 10 + 500) / 1000 % 10)) ++ "k") ∧
    (∀ n : Int, 1000000 ≤ n →
      formatNumber n =
        (if (n.toNat * 10 + 500000) / 1000000 % 10 = 0
         then toString ((n.toNat * 10 + 500000) / 1000000 / 10)
         else toString ((n.toNat * 10 + 500000) / 1000000 / 10) ++ "." ++
           toString ((n.toNat * 10 + 500000) / 1000000 % 10)) ++ "m") :=
  ⟨by decide, by decide, by decide, by decide,
   formatNumber_small, formatNumber_thousands, formatNumber_millions⟩

/-- C9: `parseRegion` maps every code of the fixed region table to its
display name, passes unknown nonempty codes through unchanged, and renders
empty or absent input as `Unknown`; in particular `US`, `ZZ` and the empty
string render as `United States`, `ZZ` and `Unknown`. -/
theorem parseRegion_contract :
    (∀ p : String × String, p ∈ regionTable → parseRegion (some p.1) = p.2) ∧
    (∀ s : String, s ≠ "" → regionTable.lookup s = none →
      parseRegion (some s) = s) ∧
    parseRegion (some "") = "Unknown" ∧
    parseRegion none = "Unknown" ∧
    parseRegion (some "US") = "United States" ∧
    parseRegion (some "ZZ") = "ZZ" := by
  refine ⟨by decide, ?_, by decide, by decide, by decide, by decide⟩
  intro s hs hl
  simp [parseRegion, orStr, hl, hs]
